import Mathlib

/-!
# Verification of the industrial-automation-sim control core

Shallow embedding of the repository's control core: the PID controller
(`src/pid_control.py`), the sensor validator (`src/sensor_validate.py`),
and one cycle of the control loop in `main` (`main.py`, Section 3).
Python floats are modelled as exact rationals; Python's `round`
(round-half-to-even) is modelled by `pyRound`.
-/

set_option autoImplicit false

namespace IndustrialSim

/-- State of `PIDController` (`src/pid_control.py`): gains, setpoint,
integral accumulator and last error.  `__init__` sets `integral = 0`
and `last_error = 0`. -/
structure PIDController where
  kp : ℚ
  ki : ℚ
  kd : ℚ
  setpoint : ℚ
  integral : ℚ
  last_error : ℚ
  deriving Repr, DecidableEq

/-- A fresh controller as built by `PIDController(kp, ki, kd, setpoint)`. -/
def PIDController.mk0 (kp ki kd setpoint : ℚ) : PIDController :=
  ⟨kp, ki, kd, setpoint, 0, 0⟩

/-- `PIDController.compute(measured_value, dt)`: returns the output and the
mutated controller state.  Mirrors the source line by line:
`error = setpoint - measured_value`; `integral += error * dt`;
`derivative = (error - last_error) / dt if dt > 0 else 0`;
`output = kp*error + ki*integral + kd*derivative`; `last_error = error`. -/
def PIDController.compute (p : PIDController) (measured_value : ℚ) (dt : ℚ) :
    ℚ × PIDController :=
  let error := p.setpoint - measured_value
  let integral := p.integral + error * dt
  let derivative := if dt > 0 then (error - p.last_error) / dt else 0
  let output := p.kp * error + p.ki * integral + p.kd * derivative
  (output, { p with integral := integral, last_error := error })

/-- `check_sensor_range(value, low, high)` (`src/sensor_validate.py`):
`False` for `None`, otherwise `low <= value <= high`. -/
def check_sensor_range (value : Option ℚ) (low high : ℚ) : Bool :=
  match value with
  | none => false
  | some v => decide (low ≤ v ∧ v ≤ high)

/-- `check_sensor_range` at its Python default arguments `low=0, high=100`. -/
def check_sensor_range_default (value : Option ℚ) : Bool :=
  check_sensor_range value 0 100

/-- Python 3 `round` to an integer: round half to even. -/
def pyRound (q : ℚ) : ℤ :=
  if q - (⌊q⌋ : ℚ) < 1/2 then ⌊q⌋
  else if 1/2 < q - (⌊q⌋ : ℚ) then ⌊q⌋ + 1
  else if ⌊q⌋ % 2 = 0 then ⌊q⌋ else ⌊q⌋ + 1

/-- Observable outcome of one cycle of the control loop in `main`
(`main.py`): the PID state after the cycle, the validity flag, the
quantized CV, the value attempted at the Field I/O register HR1, and the
values published to the OPC UA tags. -/
structure CycleResult where
  pid : PIDController
  valid : Bool
  cv_scaled : ℤ
  reg_write : ℤ
  published_pv : Option ℚ
  published_cv : ℚ
  published_valid : Bool
  deriving Repr, DecidableEq

/-- One cycle of the `while True` loop in `main` (`main.py` lines 126-170):
assign the telemetry setpoint into the PID, validate the PV read from
Modbus (`None` on read failure), compute/clamp/quantize the CV when valid
or fail-safe to 0 when not, attempt the register write (its failure is
swallowed, so `writeOk` affects nothing), and publish PV (when present),
CV and VALID to the OPC UA tags. -/
def cycle (pid : PIDController) (sp : ℚ) (pv : Option ℚ) (dt : ℚ)
    (writeOk : Bool) : CycleResult :=
  let pid1 : PIDController := { pid with setpoint := sp }
  let valid : Bool := if pv.isSome then check_sensor_range pv 0 200 else false
  let step : ℤ × PIDController :=
    if valid then
      let r := pid1.compute (pv.getD 0) dt
      let cv_clamped := max (-1000 : ℚ) (min 1000 r.1)
      (pyRound cv_clamped, r.2)
    else
      (0, pid1)
  let _ := writeOk
  { pid := step.2
    valid := valid
    cv_scaled := step.1
    reg_write := step.1
    published_pv := pv
    published_cv := (step.1 : ℚ)
    published_valid := valid }

lemma pyRound_eq_of_lt {q : ℚ} {f : ℤ} (hf : ⌊q⌋ = f) (h : q - (f : ℚ) < 1/2) :
    pyRound q = f := by
  unfold pyRound
  rw [hf, if_pos h]

lemma pyRound_eq_of_gt {q : ℚ} {f : ℤ} (hf : ⌊q⌋ = f) (h : 1/2 < q - (f : ℚ)) :
    pyRound q = f + 1 := by
  unfold pyRound
  have h2 : ¬ (q - (f : ℚ) < 1/2) := by linarith
  rw [hf, if_neg h2, if_pos h]

lemma pyRound_25_4 : pyRound (25/4) = 6 := by
  have hf : ⌊(25/4 : ℚ)⌋ = 6 := by
    rw [Int.floor_eq_iff]
    norm_num
  have h := pyRound_eq_of_lt hf (by norm_num)
  simpa using h

lemma pyRound_13_4 : pyRound (13/4) = 3 := by
  have hf : ⌊(13/4 : ℚ)⌋ = 3 := by
    rw [Int.floor_eq_iff]
    norm_num
  have h := pyRound_eq_of_lt hf (by norm_num)
  simpa using h

lemma pyRound_neg_6_5 : pyRound (-(6/5)) = -1 := by
  have hf : ⌊(-(6/5) : ℚ)⌋ = -2 := by
    rw [Int.floor_eq_iff]
    norm_num
  have h := pyRound_eq_of_gt hf (by norm_num)
  simpa using h

lemma pyRound_le (q : ℚ) : (pyRound q : ℚ) ≤ q + 1/2 := by
  have h0 : (⌊q⌋ : ℚ) ≤ q := Int.floor_le q
  have h1 : q < ⌊q⌋ + 1 := Int.lt_floor_add_one q
  unfold pyRound
  split_ifs with a b c
  all_goals push_cast
  all_goals linarith

lemma le_pyRound (q : ℚ) : q - 1/2 ≤ (pyRound q : ℚ) := by
  have h0 : (⌊q⌋ : ℚ) ≤ q := Int.floor_le q
  have h1 : q < ⌊q⌋ + 1 := Int.lt_floor_add_one q
  unfold pyRound
  split_ifs with a b c
  all_goals push_cast
  all_goals linarith

/-- The quantized, clamped control value is an integer in [-1000, 1000]. -/
lemma pyRound_clamped_bounds (x : ℚ) :
    -1000 ≤ pyRound (max (-1000) (min 1000 x)) ∧
      pyRound (max (-1000) (min 1000 x)) ≤ 1000 := by
  set c := max (-1000 : ℚ) (min 1000 x) with hc
  have h1 : (-1000 : ℚ) ≤ c := le_max_left _ _
  have h2 : c ≤ 1000 := max_le (by norm_num) (min_le_left _ _)
  have hle : (pyRound c : ℚ) ≤ c + 1/2 := pyRound_le c
  have hge : c - 1/2 ≤ (pyRound c : ℚ) := le_pyRound c
  constructor
  · have h3 : ((-1001 : ℤ) : ℚ) < (pyRound c : ℚ) := by push_cast; linarith
    have h4 : (-1001 : ℤ) < pyRound c := by exact_mod_cast h3
    omega
  · have h3 : ((pyRound c : ℚ)) < ((1001 : ℤ) : ℚ) := by push_cast; linarith
    have h4 : pyRound c < (1001 : ℤ) := by exact_mod_cast h3
    omega

/-- The fail-safe branch of a cycle, fully evaluated. -/
lemma cycle_eq_invalid (pid : PIDController) (sp : ℚ) (pv : Option ℚ) (dt : ℚ) (w : Bool)
    (h : (if pv.isSome then check_sensor_range pv 0 200 else false) = false) :
    cycle pid sp pv dt w =
      { pid := { pid with setpoint := sp }, valid := false, cv_scaled := 0,
        reg_write := 0, published_pv := pv, published_cv := 0,
        published_valid := false } := by
  simp [cycle, h]

/-- The valid branch of a cycle, fully evaluated. -/
lemma cycle_eq_valid (pid : PIDController) (sp v dt : ℚ) (w : Bool)
    (h : check_sensor_range (some v) 0 200 = true) :
    cycle pid sp (some v) dt w =
      { pid := (({ pid with setpoint := sp } : PIDController).compute v dt).2,
        valid := true,
        cv_scaled := pyRound (max (-1000)
          (min 1000 (({ pid with setpoint := sp } : PIDController).compute v dt).1)),
        reg_write := pyRound (max (-1000)
          (min 1000 (({ pid with setpoint := sp } : PIDController).compute v dt).1)),
        published_pv := some v,
        published_cv := (pyRound (max (-1000)
          (min 1000 (({ pid with setpoint := sp } : PIDController).compute v dt).1)) : ℚ),
        published_valid := true } := by
  simp [cycle, h]

/-- C1: in every cycle of the control loop, the control value written to the
Field I/O register and published to telemetry lies within [-1000, 1000], and
it is exactly 0 whenever the validity flag for that cycle is false. -/
theorem cycle_cv_bounds_and_failsafe (pid : PIDController) (sp : ℚ)
    (pv : Option ℚ) (dt : ℚ) (w : Bool) :
    -1000 ≤ (cycle pid sp pv dt w).cv_scaled ∧
    (cycle pid sp pv dt w).cv_scaled ≤ 1000 ∧
    -1000 ≤ (cycle pid sp pv dt w).published_cv ∧
    (cycle pid sp pv dt w).published_cv ≤ 1000 ∧
    ((cycle pid sp pv dt w).valid = false →
      (cycle pid sp pv dt w).cv_scaled = 0 ∧
      (cycle pid sp pv dt w).published_cv = 0) := by
  by_cases hb : (if pv.isSome then check_sensor_range pv 0 200 else false) = true
  · obtain ⟨v, rfl⟩ : ∃ v, pv = some v := by
      cases pv with
      | none => simp at hb
      | some v => exact ⟨v, rfl⟩
    have hv : check_sensor_range (some v) 0 200 = true := by simpa using hb
    rw [cycle_eq_valid pid sp v dt w hv]
    dsimp only
    have hbd := pyRound_clamped_bounds
      (({ pid with setpoint := sp } : PIDController).compute v dt).1
    refine ⟨hbd.1, hbd.2, ?_, ?_, ?_⟩
    · exact_mod_cast hbd.1
    · exact_mod_cast hbd.2
    · intro hcontra
      simp at hcontra
  · rw [cycle_eq_invalid pid sp pv dt w (by simpa using hb)]
    norm_num

/-- C1 witness: with an absent PV the cycle is invalid and the CV is 0 and
in bounds. -/
theorem cycle_cv_bounds_and_failsafe_witness :
    (cycle (PIDController.mk0 1 (1/5) (1/20) 50) 50 none 1 true).cv_scaled = 0 ∧
    (cycle (PIDController.mk0 1 (1/5) (1/20) 50) 50 none 1 true).published_cv = 0 ∧
    -1000 ≤ (cycle (PIDController.mk0 1 (1/5) (1/20) 50) 50 none 1 true).cv_scaled := by
  have h := cycle_cv_bounds_and_failsafe (PIDController.mk0 1 (1/5) (1/20) 50) 50 none 1 true
  have hv : (cycle (PIDController.mk0 1 (1/5) (1/20) 50) 50 none 1 true).valid = false := by
    rw [cycle_eq_invalid _ _ _ _ _ (by simp)]
  exact ⟨(h.2.2.2.2 hv).1, (h.2.2.2.2 hv).2, h.1⟩

/-- C2: for every cycle in which VALID is false, the published CV equals 0
exactly and the PID integral accumulator and last_error after the cycle
equal their values before the cycle (compute is never called). -/
theorem cycle_invalid_frame (pid : PIDController) (sp : ℚ)
    (pv : Option ℚ) (dt : ℚ) (w : Bool)
    (h : (cycle pid sp pv dt w).valid = false) :
    (cycle pid sp pv dt w).cv_scaled = 0 ∧
    (cycle pid sp pv dt w).published_cv = 0 ∧
    (cycle pid sp pv dt w).pid.integral = pid.integral ∧
    (cycle pid sp pv dt w).pid.last_error = pid.last_error := by
  have hb : (if pv.isSome then check_sensor_range pv 0 200 else false) = false := by
    have hv : (cycle pid sp pv dt w).valid =
        (if pv.isSome then check_sensor_range pv 0 200 else false) := by
      simp [cycle]
    rw [hv] at h
    exact h
  rw [cycle_eq_invalid pid sp pv dt w hb]
  norm_num

/-- C2 witness: concrete invalid cycle (absent PV) leaves integral and
last_error untouched and publishes 0. -/
theorem cycle_invalid_frame_witness :
    (cycle ⟨1, 1/5, 1/20, 50, 7, 2⟩ 50 none 1 true).cv_scaled = 0 ∧
    (cycle ⟨1, 1/5, 1/20, 50, 7, 2⟩ 50 none 1 true).published_cv = 0 ∧
    (cycle ⟨1, 1/5, 1/20, 50, 7, 2⟩ 50 none 1 true).pid.integral = 7 ∧
    (cycle ⟨1, 1/5, 1/20, 50, 7, 2⟩ 50 none 1 true).pid.last_error = 2 := by
  have h := cycle_invalid_frame ⟨1, 1/5, 1/20, 50, 7, 2⟩ 50 none 1 true
    (by rw [cycle_eq_invalid _ _ _ _ _ (by simp)])
  exact h

/-- C3: compute returns Kp*e + Ki*(I + e*dt) + Kd*(e - E_prev)/dt with
e = SP - measured_value (integral accumulated before use), leaves the
state with I + e*dt and last_error = e, and from a fresh controller with
SP=50, Kp=1.0, Ki=0.1, Kd=0.05, compute(45, 1.0) returns exactly 5.75. -/
theorem compute_formula_and_reference_value
    (p : PIDController) (mv dt : ℚ) (hdt : 0 < dt) :
    (p.compute mv dt).1 =
      p.kp * (p.setpoint - mv) + p.ki * (p.integral + (p.setpoint - mv) * dt)
        + p.kd * ((p.setpoint - mv - p.last_error) / dt) ∧
    (p.compute mv dt).2.integral = p.integral + (p.setpoint - mv) * dt ∧
    (p.compute mv dt).2.last_error = p.setpoint - mv ∧
    (p.compute mv dt).2.setpoint = p.setpoint ∧
    ((PIDController.mk0 1 (1/10) (1/20) 50).compute 45 1).1 = 23/4 := by
  refine ⟨?_, ?_, ?_, ?_, ?_⟩
  · simp [PIDController.compute, hdt]
  · simp [PIDController.compute]
  · simp [PIDController.compute]
  · simp [PIDController.compute]
  · norm_num [PIDController.compute, PIDController.mk0]

/-- C3 witness: the reference computation at dt = 1 > 0. -/
theorem compute_formula_witness :
    ((PIDController.mk0 1 (1/10) (1/20) 50).compute 45 1).1 = 23/4 :=
  (compute_formula_and_reference_value (PIDController.mk0 1 (1/10) (1/20) 50)
    45 1 (by norm_num)).2.2.2.2

/-- C4: the sensor validator rejects every absent value and accepts a
present value exactly when low ≤ value ≤ high, both bounds inclusive. -/
theorem check_sensor_range_correct :
    (∀ low high : ℚ, check_sensor_range none low high = false) ∧
    (∀ v low high : ℚ,
      check_sensor_range (some v) low high = true ↔ low ≤ v ∧ v ≤ high) ∧
    (∀ low high : ℚ, low ≤ high →
      check_sensor_range (some low) low high = true ∧
      check_sensor_range (some high) low high = true) := by
  refine ⟨fun low high => rfl, fun v low high => by simp [check_sensor_range],
    fun low high h => ⟨?_, ?_⟩⟩
  · simp [check_sensor_range, h]
  · simp [check_sensor_range, h]

/-- C4 witness: boundary values of the deployed range [0, 200] are valid. -/
theorem check_sensor_range_correct_witness :
    check_sensor_range (some 0) 0 200 = true ∧
    check_sensor_range (some 200) 0 200 = true :=
  check_sensor_range_correct.2.2 0 200 (by norm_num)

/-- C5 counterexample: with zero error and zero stored last_error, two
successive compute calls with identical arguments return the same value,
so the claimed unconditional divergence is false. -/
theorem compute_twice_counterexample :
    ((PIDController.mk0 1 (1/10) (1/20) 50).compute 50 1).1 =
      (((PIDController.mk0 1 (1/10) (1/20) 50).compute 50 1).2.compute 50 1).1 := by
  norm_num [PIDController.compute, PIDController.mk0]

/-- C5 amended: the second of two compute calls with identical
(measured_value, dt, SP) differs from the first by exactly
Ki*e*dt - Kd*(e - E_prev)/dt, so the two results diverge precisely when
that quantity is nonzero (and coincide when it is zero). -/
theorem compute_twice_difference (p : PIDController) (mv dt : ℚ) (hdt : 0 < dt) :
    ((p.compute mv dt).2.compute mv dt).1 =
      (p.compute mv dt).1 + p.ki * (p.setpoint - mv) * dt
        - p.kd * ((p.setpoint - mv - p.last_error) / dt) := by
  simp only [PIDController.compute, if_pos hdt]
  field_simp
  ring

/-- C5 witness: in the reference scenario the difference is 1/4 ≠ 0, so the
two calls do diverge there. -/
theorem compute_twice_difference_witness :
    (((PIDController.mk0 1 (1/10) (1/20) 50).compute 45 1).2.compute 45 1).1 =
      ((PIDController.mk0 1 (1/10) (1/20) 50).compute 45 1).1 + 1/4 := by
  have h := compute_twice_difference (PIDController.mk0 1 (1/10) (1/20) 50) 45 1
    (by norm_num)
  rw [h]
  norm_num [PIDController.mk0]
  ring

/-- C6 counterexample: 150 lies in [0, 200] but the validator's default
bounds reject it, so the default admissible range is not [0, 200]. -/
theorem default_range_counterexample :
    check_sensor_range_default (some 150) = false ∧
      ((0 : ℚ) ≤ 150 ∧ (150 : ℚ) ≤ 200) := by
  constructor
  · norm_num [check_sensor_range_default, check_sensor_range]
  · norm_num

/-- C6 amended: the validator's own default bounds are [0, 100]; the
reference deployment's control loop instead passes [0, 200] explicitly,
and every cycle's validity flag is check_sensor_range(pv, 0, 200). -/
theorem default_range_amended :
    (∀ v : ℚ, check_sensor_range_default (some v) = true ↔ 0 ≤ v ∧ v ≤ 100) ∧
    (∀ (pid : PIDController) (sp dt : ℚ) (pv : Option ℚ) (w : Bool),
      (cycle pid sp pv dt w).valid = check_sensor_range pv 0 200) := by
  constructor
  · intro v
    simp [check_sensor_range_default, check_sensor_range]
  · intro pid sp dt pv w
    cases pv with
    | none => simp [cycle, check_sensor_range]
    | some v => simp [cycle]

/-- C6 amended witness: 100 is accepted by the default bounds. -/
theorem default_range_amended_witness :
    check_sensor_range_default (some 100) = true :=
  (default_range_amended.1 100).mpr (by norm_num)

/-- The controller constructed in `main`: `PIDController(kp=1.0, ki=0.2,
kd=0.05, setpoint=50.0)`. -/
def scenario_pid0 : PIDController := PIDController.mk0 1 (1/5) (1/20) 50

/-- Cycle 1 of the §8 end-to-end scenario: PV = 45. -/
def scenario_r1 : CycleResult := cycle scenario_pid0 50 (some 45) 1 true

/-- Cycle 2 of the scenario: PV = 48. -/
def scenario_r2 : CycleResult := cycle scenario_r1.pid 50 (some 48) 1 true

/-- Cycle 3 of the scenario: PV absent (read failure). -/
def scenario_r3 : CycleResult := cycle scenario_r2.pid 50 none 1 true

/-- Cycle 4 of the scenario: PV = 52. -/
def scenario_r4 : CycleResult := cycle scenario_r3.pid 50 (some 52) 1 true

lemma scenario_r1_eq :
    scenario_r1 = ⟨⟨1, 1/5, 1/20, 50, 5, 5⟩, true, 6, 6, some 45, 6, true⟩ := by
  unfold scenario_r1 scenario_pid0 PIDController.mk0
  rw [cycle_eq_valid _ _ _ _ _ (by norm_num [check_sensor_range])]
  norm_num [PIDController.compute, min_def, max_def, pyRound_25_4]

lemma scenario_r2_eq :
    scenario_r2 = ⟨⟨1, 1/5, 1/20, 50, 7, 2⟩, true, 3, 3, some 48, 3, true⟩ := by
  unfold scenario_r2
  rw [scenario_r1_eq]
  rw [cycle_eq_valid _ _ _ _ _ (by norm_num [check_sensor_range])]
  norm_num [PIDController.compute, min_def, max_def, pyRound_13_4]

lemma scenario_r3_eq :
    scenario_r3 = ⟨⟨1, 1/5, 1/20, 50, 7, 2⟩, false, 0, 0, none, 0, false⟩ := by
  unfold scenario_r3
  rw [scenario_r2_eq]
  rw [cycle_eq_invalid _ _ _ _ _ (by simp)]

lemma scenario_r4_eq :
    scenario_r4 = ⟨⟨1, 1/5, 1/20, 50, 5, -2⟩, true, -1, -1, some 52, -1, true⟩ := by
  unfold scenario_r4
  rw [scenario_r3_eq]
  rw [cycle_eq_valid _ _ _ _ _ (by norm_num [check_sensor_range])]
  norm_num [PIDController.compute, min_def, max_def, pyRound_neg_6_5]

/-- C7: in the four-cycle scenario (SP=50, gains 1.0/0.2/0.05, dt=1, PV
readings [45, 48, absent, 52]), cycle 3 is invalid with CV=0 and PID state
identical to the end of cycle 2, and cycle 4 computes from cycle 2's PID
state; the loop resumes normally (cycle 4 is valid with CV=-1). -/
theorem four_cycle_scenario :
    scenario_r3.valid = false ∧
    scenario_r3.cv_scaled = 0 ∧
    scenario_r3.pid.integral = scenario_r2.pid.integral ∧
    scenario_r3.pid.last_error = scenario_r2.pid.last_error ∧
    scenario_r4 = cycle scenario_r2.pid 50 (some 52) 1 true ∧
    scenario_r4.valid = true ∧
    scenario_r4.cv_scaled = -1 := by
  have h2 := scenario_r2_eq
  have h3 := scenario_r3_eq
  have h4 := scenario_r4_eq
  refine ⟨by rw [h3], by rw [h3], by rw [h3, h2], by rw [h3, h2], ?_, by rw [h4], by rw [h4]⟩
  show cycle scenario_r3.pid 50 (some 52) 1 true = cycle scenario_r2.pid 50 (some 52) 1 true
  rw [h3, h2]

/-- The control loop's per-cycle setpoint assignment
`pid.setpoint = sp_val` (`main.py`). -/
def setSetpoint (p : PIDController) (sp : ℚ) : PIDController :=
  { p with setpoint := sp }

/-- C8: assigning a new setpoint changes only the setpoint field — integral,
last_error and the gains are untouched — and the very next compute call
uses the new setpoint (its error is sp - measured_value). -/
theorem setpoint_assignment_frame (p : PIDController) (sp mv dt : ℚ) :
    (setSetpoint p sp).setpoint = sp ∧
    (setSetpoint p sp).integral = p.integral ∧
    (setSetpoint p sp).last_error = p.last_error ∧
    (setSetpoint p sp).kp = p.kp ∧
    (setSetpoint p sp).ki = p.ki ∧
    (setSetpoint p sp).kd = p.kd ∧
    ((setSetpoint p sp).compute mv dt).2.last_error = sp - mv ∧
    ((setSetpoint p sp).compute mv dt).2.integral = p.integral + (sp - mv) * dt ∧
    (0 < dt → ((setSetpoint p sp).compute mv dt).1 =
      p.kp * (sp - mv) + p.ki * (p.integral + (sp - mv) * dt)
        + p.kd * ((sp - mv - p.last_error) / dt)) := by
  refine ⟨rfl, rfl, rfl, rfl, rfl, rfl, ?_, ?_, ?_⟩
  · simp [setSetpoint, PIDController.compute]
  · simp [setSetpoint, PIDController.compute]
  · intro hdt
    simp [setSetpoint, PIDController.compute, hdt]

/-- C8 witness: with state (I=7, E_prev=2), assigning SP=60 and computing
at mv=45, dt=1 yields the output determined by the new setpoint. -/
theorem setpoint_assignment_frame_witness :
    ((setSetpoint ⟨1, 1/5, 1/20, 50, 7, 2⟩ 60).compute 45 1).1 = 401/20 := by
  have h := (setpoint_assignment_frame ⟨1, 1/5, 1/20, 50, 7, 2⟩ 60 45 1).2.2.2.2.2.2.2.2
    (by norm_num)
  norm_num at h
  exact h

/-- C9: the telemetry ControlOutput value equals (as a float) the quantized
integer attempted at the Field I/O register, and the whole cycle outcome —
publish included — is unaffected by whether the register write succeeds. -/
theorem publish_unconditional (pid : PIDController) (sp : ℚ) (pv : Option ℚ)
    (dt : ℚ) :
    (∀ w : Bool, cycle pid sp pv dt w = cycle pid sp pv dt true) ∧
    (∀ w : Bool,
      (cycle pid sp pv dt w).published_cv = ((cycle pid sp pv dt w).reg_write : ℚ)) ∧
    (∀ w : Bool,
      (cycle pid sp pv dt w).reg_write = (cycle pid sp pv dt w).cv_scaled) :=
  ⟨fun _ => rfl, fun _ => rfl, fun _ => rfl⟩

/-- C10: compute with dt ≤ 0 is total (no exception path), the derivative
term contributes 0, yet the state is still mutated: integral is advanced by
error*dt and last_error is overwritten with the current error. -/
theorem compute_nonpositive_dt (p : PIDController) (mv dt : ℚ) (hdt : dt ≤ 0) :
    (p.compute mv dt).1 =
      p.kp * (p.setpoint - mv) + p.ki * (p.integral + (p.setpoint - mv) * dt) ∧
    (p.compute mv dt).2.integral = p.integral + (p.setpoint - mv) * dt ∧
    (p.compute mv dt).2.last_error = p.setpoint - mv := by
  have h : ¬ (dt > 0) := not_lt.mpr hdt
  refine ⟨?_, ?_, ?_⟩
  · simp [PIDController.compute, h]
  · simp [PIDController.compute]
  · simp [PIDController.compute]

/-- C10 witness: at dt = -1 with error 5 and integral 7, the integral drops
to 2 and last_error becomes 5, with no exception. -/
theorem compute_nonpositive_dt_witness :
    ((⟨1, 1/5, 1/20, 50, 7, 2⟩ : PIDController).compute 45 (-1)).2.integral = 2 ∧
    ((⟨1, 1/5, 1/20, 50, 7, 2⟩ : PIDController).compute 45 (-1)).2.last_error = 5 := by
  have h := compute_nonpositive_dt ⟨1, 1/5, 1/20, 50, 7, 2⟩ 45 (-1) (by norm_num)
  constructor
  · rw [h.2.1]
    norm_num
  · rw [h.2.2]
    norm_num

end IndustrialSim
